import Mathlib

/-!
Verification of the Bloomberg Data License API client
(`src/api/bloomberg_api.py`, `src/api/session.py`, `src/BloombergDataClient.py`,
`src/run.py`, `src/db/hana_client.py`).

The Python code is shallowly embedded: time is modelled in whole seconds as
integers, HTTP interactions are modelled by explicit arguments (the sequence
of listings a polled endpoint would return, the headers and body of a
response, the outcome of each attempt of a request), and Python exceptions
become `Except` / explicit outcome values.
-/

/-- Errors raised by the client (Python `RuntimeError` variants and the
OAuth `TokenExpiredError`). -/
inductive DLError where
  | catalogNotFound
  | unsupportedEncoding
  | tokenExpired
  | valueError
  | httpError (status : Nat)
  deriving DecidableEq, Repr

/-- One entry of the response listing returned by the
`/content/responses/` endpoint; `wait_for_response` only reads its `key`. -/
structure ResponseEntry where
  key : String
  deriving DecidableEq, Repr

/-- Outcome of a run of the polling loop in
`BloombergApiClient.wait_for_response`: the returned output key (`none` on
timeout), the number of GETs of the response listing that were issued, and
the clock time (seconds) at which the function returned. -/
structure PollResult where
  key : Option String
  polls : Nat
  finishTime : Int
  deriving DecidableEq, Repr

/-- The `while datetime.datetime.utcnow() < expiration_timestamp` loop of
`wait_for_response` (src/api/bloomberg_api.py lines 178-193).  `listings i`
is the filtered listing the server returns on the i-th GET (0-based);
`deadline` is the absolute expiration timestamp and `now` the current clock,
both in seconds; each empty poll sleeps 30 seconds.  A non-empty listing
returns the first entry's key immediately. -/
def pollLoop (listings : Nat → List ResponseEntry) (deadline : Int)
    (now : Int) (polls : Nat) : PollResult :=
  if _h : now < deadline then
    match listings polls with
    | [] => pollLoop listings deadline (now + 30) (polls + 1)
    | e :: _ => ⟨some e.key, polls + 1, now⟩
  else
    ⟨none, polls, now⟩
termination_by (deadline - now).toNat
decreasing_by
  simp_wf
  omega

/-- `BloombergApiClient.wait_for_response`: the deadline is
`utcnow() + timedelta(minutes=timeout_minutes)` and the loop starts with no
poll issued yet. -/
def wait_for_response (listings : Nat → List ResponseEntry)
    (start : Int) (timeout_minutes : Int) : PollResult :=
  pollLoop listings (start + 60 * timeout_minutes) start 0

lemma pollLoop_success (listings : Nat → List ResponseEntry) (deadline : Int)
    (e : ResponseEntry) (rest : List ResponseEntry) :
    ∀ (N : Nat) (start : Int) (p : Nat),
    (∀ i, i < N → listings (p + i) = []) →
    listings (p + N) = e :: rest →
    start + 30 * (N : Int) < deadline →
    pollLoop listings deadline start p = ⟨some e.key, p + N + 1, start + 30 * (N : Int)⟩ := by
  intro N
  induction N with
  | zero =>
    intro start p _ hFound hD
    have hlt : start < deadline := by omega
    rw [pollLoop]
    simp only [Nat.add_zero] at hFound
    simp [hlt, hFound]
  | succ n ih =>
    intro start p hEmpty hFound hD
    have hlt : start < deadline := by
      have : (0 : Int) ≤ 30 * ((n : Int) + 1) := by positivity
      push_cast at hD
      omega
    have h0 : listings p = [] := by
      have := hEmpty 0 (Nat.succ_pos n)
      simpa using this
    rw [pollLoop]
    simp only [hlt, h0, dite_true, dif_pos]
    have hstep := ih (start + 30) (p + 1)
      (fun i hi => by
        have := hEmpty (i + 1) (by omega)
        rwa [show p + (i + 1) = p + 1 + i by omega] at this)
      (by rwa [show p + (n + 1) = p + 1 + n by omega] at hFound)
      (by push_cast at hD ⊢; omega)
    rw [hstep]
    have h1 : p + 1 + n + 1 = p + (n + 1) + 1 := by omega
    have h2 : start + 30 + 30 * (n : Int) = start + 30 * ((n : Int) + 1) := by ring
    rw [h1, h2]
    push_cast
    ring_nf

lemma pollLoop_timeout (listings : Nat → List ResponseEntry) (deadline : Int)
    (hE : ∀ i, listings i = []) :
    ∀ (n : Nat) (start : Int) (p : Nat), (deadline - start).toNat ≤ n →
    (pollLoop listings deadline start p).key = none ∧
    deadline ≤ (pollLoop listings deadline start p).finishTime := by
  intro n
  induction n with
  | zero =>
    intro start p hn
    have hge : ¬ start < deadline := by omega
    rw [pollLoop]
    simp [hge]
    omega
  | succ n ih =>
    intro start p hn
    by_cases hlt : start < deadline
    · rw [pollLoop]
      simp only [hlt, hE p, dite_true, dif_pos]
      exact ih (start + 30) (p + 1) (by omega)
    · rw [pollLoop]
      simp [hlt]
      omega

/-- C1: if the filtered response listing is empty on the first N polls and
non-empty on poll N+1, with the deadline not yet reached at each of these
polls, then `wait_for_response` issues exactly N+1 GETs of the listing and
returns the key of the first entry of the non-empty listing (ignoring the
rest of that listing); and whenever the listing stays empty on every poll,
it returns `none` at or after the absolute deadline `start + timeout`. -/
theorem wait_for_response_poll_count (listings : Nat → List ResponseEntry)
    (start timeout_minutes : Int) (N : Nat) (e : ResponseEntry)
    (rest : List ResponseEntry)
    (hEmpty : ∀ i, i < N → listings i = [])
    (hFound : listings N = e :: rest)
    (hDeadline : start + 30 * (N : Int) < start + 60 * timeout_minutes) :
    wait_for_response listings start timeout_minutes =
      ⟨some e.key, N + 1, start + 30 * (N : Int)⟩ ∧
    ∀ (listings2 : Nat → List ResponseEntry) (s t : Int),
      (∀ i, listings2 i = []) →
      (wait_for_response listings2 s t).key = none ∧
      s + 60 * t ≤ (wait_for_response listings2 s t).finishTime := by
  constructor
  · have := pollLoop_success listings (start + 60 * timeout_minutes) e rest N start 0
      (by simpa using hEmpty) (by simpa using hFound) hDeadline
    simpa [wait_for_response] using this
  · intro listings2 s t hAllEmpty
    exact pollLoop_timeout listings2 (s + 60 * t) hAllEmpty
      ((s + 60 * t - s).toNat) s 0 le_rfl

/-- Concrete polling schedule used by the witness of C1: empty listing on
the first two polls, then a single entry. -/
def w1_listings : Nat → List ResponseEntry :=
  fun i => if i < 2 then [] else [⟨"key0"⟩]

/-- Witness for C1: with listings empty on polls 0 and 1 and non-empty on
poll 2, a 45-minute timeout run returns the first key after exactly 3 GETs. -/
theorem wait_for_response_poll_count_witness :
    wait_for_response w1_listings 0 45 = ⟨some "key0", 3, 60⟩ := by
  have h := (wait_for_response_poll_count w1_listings 0 45 2 ⟨"key0"⟩ []
    (fun i hi => by simp [w1_listings, hi]) (by simp [w1_listings])
    (by norm_num)).1
  simpa using h

/-- C10: a run with a non-positive timeout returns `none` immediately: the
deadline check precedes the first poll, so no GET of the response listing is
issued at all. -/
theorem wait_for_response_nonpositive_timeout
    (listings : Nat → List ResponseEntry) (start timeout_minutes : Int)
    (h : timeout_minutes ≤ 0) :
    wait_for_response listings start timeout_minutes = ⟨none, 0, start⟩ := by
  have hge : ¬ start < start + 60 * timeout_minutes := by omega
  rw [wait_for_response, pollLoop]
  simp [hge]

/-- Witness for C10: with timeout 0 the poller returns `none` with zero
polls even though the listing is non-empty from the start. -/
theorem wait_for_response_nonpositive_timeout_witness :
    wait_for_response (fun _ => [⟨"k"⟩]) 100 0 = ⟨none, 0, 100⟩ :=
  wait_for_response_nonpositive_timeout (fun _ => [⟨"k"⟩]) 100 0 (by norm_num)

/-- Outcome of one attempt of an HTTP request made through the session:
either a response value, or a raised error (`TokenExpiredError` or another
failure). -/
inductive ReqOutcome (α : Type) where
  | ok (response : α)
  | err (e : DLError)
  deriving DecidableEq, Repr

/-- Trace of one call of `DLRestApiSession.request`: the value it returns
or the error it propagates, the number of token refreshes it performed, and
the number of times `super().request` was invoked. -/
structure SessionTrace (α : Type) where
  result : ReqOutcome α
  refreshes : Nat
  attempts : Nat
  deriving DecidableEq, Repr

/-- `DLRestApiSession.request_token` (src/api/session.py lines 18-29):
delegates to the library's `fetch_token(token_url=oauth2_endpoint, ...)`,
which raises `ValueError` when no token url is supplied (`token_url=None`).
The argument is the `oauth2_endpoint` value the caller passes in. -/
def request_token (oauth2_endpoint : Option String) : Except DLError Unit :=
  match oauth2_endpoint with
  | none => .error .valueError
  | some _ => .ok ()

/-- `DLRestApiSession.request` (src/api/session.py lines 31-45): try the
underlying request once; on `TokenExpiredError` the except-handler calls
`self.request_token(kwargs.get('oauth2_endpoint'), kwargs.get('client_secret'))`
and then retries once.  If `request_token` itself raises, that exception
propagates out of the handler and the retry never executes.
`oauth2_endpoint` is `kwargs.get('oauth2_endpoint')` for this call — `none`
for every call site in the repository, which all go through plain
`session.get` / `session.post` and pass no such kwarg.  `attempt i` is the
outcome of the i-th invocation of `super().request`. -/
def DLRestApiSession.request {α : Type} (attempt : Nat → ReqOutcome α)
    (oauth2_endpoint : Option String) : SessionTrace α :=
  match attempt 0 with
  | .err .tokenExpired =>
    match request_token oauth2_endpoint with
    | .error e => ⟨.err e, 0, 1⟩
    | .ok _ => ⟨attempt 1, 1, 2⟩
  | r => ⟨r, 0, 1⟩

/-- C2 (code bug): the refresh-and-retry the claim asserts never happens in
the program.  Every call site invokes the session without an
`oauth2_endpoint` kwarg, so when the first attempt raises
`TokenExpiredError` the handler's `request_token(None, None)` raises
`ValueError` before the retry: zero refreshes complete, the original call
is retried zero times (only 1 attempt), and the `ValueError` propagates —
whatever a retry would have returned. -/
theorem session_request_refresh_never_retries {α : Type}
    (retry : Nat → ReqOutcome α) :
    DLRestApiSession.request
      (fun n => match n with | 0 => .err .tokenExpired | k + 1 => retry k)
      none = ⟨.err .valueError, 0, 1⟩ := rfl

/-- One entry of the `/eap/catalogs/` listing; `discover_catalog_id` reads
its `subscriptionType` and `identifier` fields. -/
structure Catalog where
  identifier : String
  subscriptionType : String
  deriving DecidableEq, Repr

/-- `BloombergApiClient.discover_catalog_id` (src/api/bloomberg_api.py
lines 71-88): scan the catalog listing in order and return the identifier
of the first entry whose `subscriptionType` equals "scheduled"; raise
`RuntimeError('Scheduled catalog not found')` if there is none. -/
def discover_catalog_id : List Catalog → Except DLError String
  | [] => .error .catalogNotFound
  | c :: rest =>
    if c.subscriptionType = "scheduled" then .ok c.identifier
    else discover_catalog_id rest

/-- C4: `discover_catalog_id` returns the identifier of the first entry in
listing order whose `subscriptionType` equals "scheduled" (hence, for a
listing with exactly one scheduled entry, that entry's identifier whatever
its position), and fails with the catalog-not-found error if and only if no
entry is scheduled. -/
theorem discover_catalog_id_first_scheduled (catalogs : List Catalog) :
    (∀ pre c post, catalogs = pre ++ c :: post →
      (∀ x ∈ pre, x.subscriptionType ≠ "scheduled") →
      c.subscriptionType = "scheduled" →
      discover_catalog_id catalogs = .ok c.identifier) ∧
    (discover_catalog_id catalogs = .error .catalogNotFound ↔
      ∀ c ∈ catalogs, c.subscriptionType ≠ "scheduled") := by
  constructor
  · intro pre
    induction pre generalizing catalogs with
    | nil =>
      intro c post hcat _ hc
      subst hcat
      simp [discover_catalog_id, hc]
    | cons a as ih =>
      intro c post hcat hpre hc
      subst hcat
      have ha : ¬ a.subscriptionType = "scheduled" := hpre a (by simp)
      rw [List.cons_append, discover_catalog_id, if_neg ha]
      exact ih (as ++ c :: post) c post rfl
        (fun x hx => hpre x (by simp [hx])) hc
  · induction catalogs with
    | nil => simp [discover_catalog_id]
    | cons c rest ih =>
      by_cases hc : c.subscriptionType = "scheduled"
      · simp [discover_catalog_id, hc]
      · simp [discover_catalog_id, hc, ih]

/-- Witness for C4: in a listing whose first entry is not scheduled, the
identifier of the first scheduled entry (position 2 of 3) is returned. -/
theorem discover_catalog_id_first_scheduled_witness :
    discover_catalog_id
      [⟨"a", "live"⟩, ⟨"b", "scheduled"⟩, ⟨"c", "scheduled"⟩] = .ok "b" :=
  (discover_catalog_id_first_scheduled
      [⟨"a", "live"⟩, ⟨"b", "scheduled"⟩, ⟨"c", "scheduled"⟩]).1
    [⟨"a", "live"⟩] ⟨"b", "scheduled"⟩ [⟨"c", "scheduled"⟩] rfl
    (by decide) rfl

/-- One identifier object from the identifiers JSON file; passed through
opaquely into the request universe. -/
structure Identifier where
  identifierType : String
  identifierValue : String
  deriving DecidableEq, Repr

/-- One field-mnemonic object of the request field list. -/
structure FieldSpec where
  mnemonic : String
  deriving DecidableEq, Repr

/-- The default field list of `create_request`
(src/api/bloomberg_api.py lines 101-113). -/
def default_fields : List FieldSpec :=
  [⟨"TOT_DEBT_TO_TOT_ASSET"⟩, ⟨"CASH_DVD_COVERAGE"⟩, ⟨"TOT_DEBT_TO_EBITDA"⟩,
   ⟨"CUR_RATIO"⟩, ⟨"QUICK_RATIO"⟩, ⟨"GROSS_MARGIN"⟩,
   ⟨"INTEREST_COVERAGE_RATIO"⟩, ⟨"EBITDA_MARGIN"⟩, ⟨"TOT_LIAB_AND_EQY"⟩,
   ⟨"NET_DEBT_TO_SHRHLDR_EQTY"⟩]

/-- The request payload dict built by `create_request`
(src/api/bloomberg_api.py lines 117-136), with the fixed `@type` markers of
the nested dicts flattened into string fields. -/
structure RequestPayload where
  atType : String
  name : String
  description : String
  universe_contains : List Identifier
  fieldList_contains : List FieldSpec
  trigger_atType : String
  outputMediaType : String
  deriving DecidableEq, Repr

/-- Payload construction of `BloombergApiClient.create_request`
(src/api/bloomberg_api.py lines 90-136): a `None` fields argument is
replaced by the default field list, and the identifiers are passed through
unchanged into `universe.contains`. -/
def create_request_payload (request_name : String)
    (identifiers : List Identifier) (fields : Option (List FieldSpec)) :
    RequestPayload :=
  let fieldList :=
    match fields with
    | none => default_fields
    | some fs => fs
  ⟨"DataRequest", request_name,
   "Bloomberg financial data request using identifiers from JSON file",
   identifiers, fieldList, "SubmitTrigger", "application/json"⟩

/-- C5: the payload's `universe.contains` is exactly the identifier list
passed in (same elements, same order) for any fields argument, and with no
fields argument the payload's `fieldList.contains` is exactly the fixed
default list of 10 mnemonics, verbatim and in order. -/
theorem create_request_payload_universe_and_defaults (request_name : String)
    (identifiers : List Identifier) (fields : Option (List FieldSpec)) :
    (create_request_payload request_name identifiers fields).universe_contains
      = identifiers ∧
    (create_request_payload request_name identifiers none).fieldList_contains
      = [⟨"TOT_DEBT_TO_TOT_ASSET"⟩, ⟨"CASH_DVD_COVERAGE"⟩,
         ⟨"TOT_DEBT_TO_EBITDA"⟩, ⟨"CUR_RATIO"⟩, ⟨"QUICK_RATIO"⟩,
         ⟨"GROSS_MARGIN"⟩, ⟨"INTEREST_COVERAGE_RATIO"⟩, ⟨"EBITDA_MARGIN"⟩,
         ⟨"TOT_LIAB_AND_EQY"⟩, ⟨"NET_DEBT_TO_SHRHLDR_EQTY"⟩] ∧
    (create_request_payload request_name identifiers none).fieldList_contains.length
      = 10 := by
  refine ⟨?_, rfl, rfl⟩
  cases fields <;> rfl

/-- Filename computation of `download_result`
(src/api/bloomberg_api.py lines 210-219): no content-encoding header keeps
the response key as the filename, "gzip" appends ".gz", the empty string is
explicitly allowed with no suffix, and any other value raises
`RuntimeError('Unsupported content encoding received in the response')`. -/
def download_filename (output_key : String)
    (contentEncoding : Option String) : Except DLError String :=
  match contentEncoding with
  | none => .ok output_key
  | some enc =>
    if enc = "gzip" then .ok (output_key ++ ".gz")
    else if enc = "" then .ok output_key
    else .error .unsupportedEncoding

/-- Outcome of `download_result`: the returned local path (or the raised
error) together with the list of (path, bytes) writes performed on the
downloads directory. -/
structure DownloadOutcome where
  result : Except DLError String
  writes : List (String × List Nat)
  deriving Repr

/-- `BloombergApiClient.download_result`
(src/api/bloomberg_api.py lines 195-230): compute the filename from the
content-encoding header (raising before anything is written when the
encoding is unsupported), then write the response body verbatim to
`downloads_path/filename` (`shutil.copyfileobj` of the raw stream — no
decompression) and return that path.  `body` is the byte sequence of the
response body as received on the wire. -/
def download_result (downloads_path output_key : String)
    (contentEncoding : Option String) (body : List Nat) : DownloadOutcome :=
  match download_filename output_key contentEncoding with
  | .error e => ⟨.error e, []⟩
  | .ok fname =>
    ⟨.ok (downloads_path ++ "/" ++ fname),
     [(downloads_path ++ "/" ++ fname, body)]⟩

/-- C3: with an absent or empty content-encoding header the local filename
is the response key with no suffix; with "gzip" it is the key with ".gz"
appended; with any other non-empty value `download_result` fails with the
unsupported-encoding error and writes no file at all. -/
theorem download_result_encoding_cases (downloads_path output_key : String)
    (body : List Nat) :
    (∀ enc, (enc = none ∨ enc = some "") →
      download_filename output_key enc = .ok output_key ∧
      download_result downloads_path output_key enc body =
        ⟨.ok (downloads_path ++ "/" ++ output_key),
         [(downloads_path ++ "/" ++ output_key, body)]⟩) ∧
    (download_filename output_key (some "gzip") = .ok (output_key ++ ".gz") ∧
     download_result downloads_path output_key (some "gzip") body =
       ⟨.ok (downloads_path ++ "/" ++ (output_key ++ ".gz")),
        [(downloads_path ++ "/" ++ (output_key ++ ".gz"), body)]⟩) ∧
    (∀ enc, enc ≠ "gzip" → enc ≠ "" →
      download_result downloads_path output_key (some enc) body =
        ⟨.error .unsupportedEncoding, []⟩) := by
  refine ⟨?_, ⟨rfl, rfl⟩, ?_⟩
  · rintro enc (rfl | rfl) <;> exact ⟨rfl, rfl⟩
  · intro enc h1 h2
    simp [download_result, download_filename, h1, h2]

/-- Witness for C3: the unsupported encoding "br" makes `download_result`
fail with the unsupported-encoding error and write nothing. -/
theorem download_result_encoding_cases_witness :
    download_result "downloads" "rkey" (some "br") [7, 8] =
      ⟨.error .unsupportedEncoding, []⟩ :=
  (download_result_encoding_cases "downloads" "rkey" [7, 8]).2.2 "br"
    (by decide) (by decide)

/-- C6: for every successful download (content-encoding absent, empty, or
"gzip") the bytes written to the local file are exactly the response body
as received — copied verbatim, no decompression or other transformation —
and the returned path is the downloads directory joined with the computed
filename. -/
theorem download_result_verbatim_copy (downloads_path output_key : String)
    (enc : Option String) (body : List Nat)
    (h : enc = none ∨ enc = some "" ∨ enc = some "gzip") :
    ∃ fname, download_filename output_key enc = .ok fname ∧
      download_result downloads_path output_key enc body =
        ⟨.ok (downloads_path ++ "/" ++ fname),
         [(downloads_path ++ "/" ++ fname, body)]⟩ := by
  rcases h with rfl | rfl | rfl
  · exact ⟨output_key, rfl, rfl⟩
  · exact ⟨output_key, rfl, rfl⟩
  · exact ⟨output_key ++ ".gz", rfl, rfl⟩

/-- Witness for C6: a gzip-encoded body of three bytes is written verbatim
to the joined path ending in ".gz". -/
theorem download_result_verbatim_copy_witness :
    ∃ fname, download_filename "rkey" (some "gzip") = .ok fname ∧
      download_result "dls" "rkey" (some "gzip") [1, 2, 3] =
        ⟨.ok ("dls" ++ "/" ++ fname), [("dls" ++ "/" ++ fname, [1, 2, 3])]⟩ :=
  download_result_verbatim_copy "dls" "rkey" (some "gzip") [1, 2, 3]
    (Or.inr (Or.inr rfl))

/-- Token-caching state of `BloombergAPIClient` in src/run.py:
`access_token` (initially `None`) and `token_expiry` in epoch seconds
(initially 0). -/
structure AuthState where
  access_token : Option String
  token_expiry : Int
  deriving DecidableEq, Repr

/-- Python truthiness of the cached token as used in
`if self.access_token and ...`: `None` and the empty string are falsy. -/
def truthyToken : Option String → Bool
  | none => false
  | some s => !(s == "")

/-- Outcome of one `authenticate` call: the token returned to the caller,
the updated client state, and the number of token POSTs issued (0 or 1). -/
structure AuthResult where
  token : Option String
  state : AuthState
  fetches : Nat
  deriving DecidableEq, Repr

/-- `BloombergAPIClient.authenticate` (src/run.py lines 27-59): return the
cached token while it is truthy and `time.time() < self.token_expiry - 60`;
otherwise POST the oauth endpoint once, cache the token the server returns,
and set `token_expiry = now + expires_in`, with `expires_in` defaulting to
3600 when the server response omits it. -/
def authenticate (st : AuthState) (now : Int) (server_token : String)
    (expires_in : Option Int) : AuthResult :=
  if truthyToken st.access_token ∧ now < st.token_expiry - 60 then
    ⟨st.access_token, st, 0⟩
  else
    ⟨some server_token, ⟨some server_token, now + expires_in.getD 3600⟩, 1⟩

/-- C7: while `now < token_expiry - 60` a call returns the cached token
unchanged with no token request issued (so repeated calls in the window all
return the same token), and a call at or after that threshold issues
exactly one token request, returns the fresh token, and sets the stored
expiry from the server-reported lifetime. -/
theorem authenticate_cache_and_refresh (st : AuthState) (now : Int)
    (server_token : String) (expires_in : Option Int) :
    (truthyToken st.access_token = true → now < st.token_expiry - 60 →
      authenticate st now server_token expires_in = ⟨st.access_token, st, 0⟩) ∧
    (st.token_expiry - 60 ≤ now →
      authenticate st now server_token expires_in =
        ⟨some server_token, ⟨some server_token, now + expires_in.getD 3600⟩, 1⟩) := by
  constructor
  · intro h1 h2
    rw [authenticate, if_pos ⟨h1, h2⟩]
  · intro h
    rw [authenticate, if_neg]
    exact fun hc => absurd hc.2 (by omega)

/-- Cached-token state used by the witness of C7. -/
def w7_state : AuthState := ⟨some "tok", 1000⟩

/-- Witness for C7: at time 900 (inside the safety window ending at 940)
the cached token is returned with no fetch; at time 940 (exactly the
threshold) one fetch happens and the expiry becomes 940 + 3600. -/
theorem authenticate_cache_and_refresh_witness :
    authenticate w7_state 900 "newtok" (some 3600) = ⟨some "tok", w7_state, 0⟩ ∧
    authenticate w7_state 940 "newtok" (some 3600) =
      ⟨some "newtok", ⟨some "newtok", 4540⟩, 1⟩ :=
  ⟨(authenticate_cache_and_refresh w7_state 900 "newtok" (some 3600)).1
      rfl (by decide),
   (authenticate_cache_and_refresh w7_state 940 "newtok" (some 3600)).2
      (by decide)⟩

/-- Outcome of `HanaClient.insert_data`: the returned row count, the list
of row tuples the final commit makes durable (in insertion order), and the
number of rows that were attempted. -/
structure InsertOutcome (β : Type) where
  rows_inserted : Nat
  committed : List β
  attempted : Nat
  deriving DecidableEq, Repr

/-- The row loop of `HanaClient.insert_data` (src/db/hana_client.py lines
185-229): every DataFrame row is attempted in order; a row whose extraction
or execute raises is logged and skipped (`continue`), a succeeding row
increments `rows_inserted` and adds its tuple to the open transaction.
`tryRow r` is `some vals` when row `r` extracts and inserts the tuple
`vals`, and `none` when it raises. -/
def insertLoop {α β : Type} (tryRow : α → Option β) :
    List α → Nat → List β → Nat → InsertOutcome β
  | [], n, committed, attempted => ⟨n, committed, attempted⟩
  | r :: rest, n, committed, attempted =>
    match tryRow r with
    | some v => insertLoop tryRow rest (n + 1) (committed ++ [v]) (attempted + 1)
    | none => insertLoop tryRow rest n committed (attempted + 1)

/-- `HanaClient.insert_data` (src/db/hana_client.py lines 161-239): run the
row loop from an empty transaction, then `self.connection.commit()` commits
every successfully inserted row and the count is returned. -/
def insert_data {α β : Type} (tryRow : α → Option β) (rows : List α) :
    InsertOutcome β :=
  insertLoop tryRow rows 0 [] 0

lemma insertLoop_spec {α β : Type} (tryRow : α → Option β) :
    ∀ (rows : List α) (n : Nat) (committed : List β) (attempted : Nat),
    insertLoop tryRow rows n committed attempted =
      ⟨n + (rows.filterMap tryRow).length,
       committed ++ rows.filterMap tryRow,
       attempted + rows.length⟩ := by
  intro rows
  induction rows with
  | nil =>
    intro n committed attempted
    simp [insertLoop]
  | cons r rest ih =>
    intro n committed attempted
    cases h : tryRow r with
    | some v =>
      simp only [insertLoop, h, List.filterMap_cons]
      rw [ih]
      simp [InsertOutcome.mk.injEq]
      all_goals omega
    | none =>
      simp only [insertLoop, h, List.filterMap_cons]
      rw [ih]
      simp [InsertOutcome.mk.injEq]
      all_goals omega

/-- C8: `insert_data` attempts every row of the DataFrame; a row whose
extraction or insert raises is skipped without aborting the rest; the
returned count is exactly the number of successfully inserted rows; and the
commit covers every successful row, including those inserted before a
failing row (no rollback). -/
theorem insert_data_partial_failures {α β : Type} (tryRow : α → Option β)
    (rows : List α) :
    (insert_data tryRow rows).attempted = rows.length ∧
    (insert_data tryRow rows).rows_inserted = (rows.filterMap tryRow).length ∧
    (insert_data tryRow rows).committed = rows.filterMap tryRow := by
  rw [insert_data, insertLoop_spec]
  simp

/-- The column list of the CREATE TABLE statement of
`HanaClient.create_table` (src/db/hana_client.py lines 131-149), as
(column name, SQL type) pairs in declaration order. -/
def hana_table_columns : List (String × String) :=
  [("ID", "INTEGER GENERATED ALWAYS AS IDENTITY PRIMARY KEY"),
   ("TICKER", "NVARCHAR(50)"),
   ("IDENTIFIER_TYPE", "NVARCHAR(20)"),
   ("IDENTIFIER_VALUE", "NVARCHAR(100)"),
   ("TOT_DEBT_TO_TOT_ASSET", "DECIMAL(18,6)"),
   ("CASH_DVD_COVERAGE", "DECIMAL(18,6)"),
   ("TOT_DEBT_TO_EBITDA", "DECIMAL(18,6)"),
   ("CUR_RATIO", "DECIMAL(18,6)"),
   ("QUICK_RATIO", "DECIMAL(18,6)"),
   ("GROSS_MARGIN", "DECIMAL(18,6)"),
   ("INTEREST_COVERAGE_RATIO", "DECIMAL(18,6)"),
   ("EBITDA_MARGIN", "DECIMAL(18,6)"),
   ("TOT_LIAB_AND_EQY", "DECIMAL(18,6)"),
   ("NET_DEBT_TO_SHRHLDR_EQTY", "DECIMAL(18,6)"),
   ("TIMESTAMP", "TIMESTAMP")]

/-- The names of the DECIMAL(18,6) financial-ratio columns of the
auto-created table, in declaration order. -/
def hana_decimal_columns : List String :=
  (hana_table_columns.filter (fun c => c.2 == "DECIMAL(18,6)")).map
    (fun c => c.1)

/-- C9: the 10 default field mnemonics of `create_request` are exactly the
names of the 10 DECIMAL columns of the table created by `create_table` —
they agree even in order, so membership coincides in both directions. -/
theorem default_fields_match_hana_decimal_columns :
    default_fields.map FieldSpec.mnemonic = hana_decimal_columns ∧
    (∀ m, m ∈ default_fields.map FieldSpec.mnemonic ↔ m ∈ hana_decimal_columns) := by
  have h : default_fields.map FieldSpec.mnemonic = hana_decimal_columns := by
    rfl
  exact ⟨h, fun m => by rw [h]⟩
